import Mathlib

set_option maxRecDepth 10000

/-!
Verification of the pypredictit client library against its specification.

The Python source is shallowly embedded: exact decimal prices (`Decimal`)
become rationals, JSON integer quantities become integers, fallible
operations return `Except`/`Option`, and in-place mutation of an object
becomes explicit state passing.  Each definition is translated from the
corresponding function in `src/predictit/`.
-/

namespace PredictIt

/-- One order-book entry, the pair `(pricePerShare, quantity)` built in
`Contract._update_order_book` from a raw JSON order. -/
abbrev BookOrder := ℚ × ℤ

/-- The comparison used by the Python `list.sort()` on `(Decimal, int)`
tuples: lexicographic order, price first. -/
def tupleLE (a b : BookOrder) : Prop :=
  a.1 < b.1 ∨ (a.1 = b.1 ∧ a.2 ≤ b.2)

instance : DecidableRel tupleLE := fun a b => by
  unfold tupleLE; infer_instance

instance : IsTotal BookOrder tupleLE := by
  constructor
  intro a b
  rcases lt_trichotomy a.1 b.1 with h | h | h
  · exact Or.inl (Or.inl h)
  · rcases le_total a.2 b.2 with hq | hq
    · exact Or.inl (Or.inr ⟨h, hq⟩)
    · exact Or.inr (Or.inr ⟨h.symm, hq⟩)
  · exact Or.inr (Or.inl h)

instance : IsTrans BookOrder tupleLE := by
  constructor
  intro a b c hab hbc
  rcases hab with h1 | ⟨h1, q1⟩
  · rcases hbc with h2 | ⟨h2, _⟩
    · exact Or.inl (h1.trans h2)
    · exact Or.inl (h2 ▸ h1)
  · rcases hbc with h2 | ⟨h2, q2⟩
    · exact Or.inl (h1 ▸ h2)
    · exact Or.inr ⟨h1.trans h2, q1.trans q2⟩

/-- The stored order book `self._order_book`: key `1` holds the canonical
yes side (from the payload's `yesOrders`), key `0` the canonical no side
(from `noOrders`). -/
structure OrderBook where
  yes : List BookOrder
  no : List BookOrder
  deriving DecidableEq

/-- The payload of the OrderBook endpoint, already projected to
`(pricePerShare, quantity)` pairs exactly as the two comprehensions in
`Contract._update_order_book` do. -/
structure OrderBookPayload where
  yesOrders : List BookOrder
  noOrders : List BookOrder

/-- `Contract._update_order_book` on a successful response: rebuild both
sides from the payload and sort each with `list.sort()` (ascending
lexicographic).  A failed response would raise in `raise_for_status`
before any of these assignments run, leaving the previous book intact. -/
def update_order_book (p : OrderBookPayload) : OrderBook :=
  { yes := List.insertionSort tupleLE p.yesOrders
    no := List.insertionSort tupleLE p.noOrders }

/-- The complementary-price transform `(p, q) ↦ (1 - p, q)` used by the
two derived no-side views. -/
def complement (x : BookOrder) : BookOrder := (1 - x.1, x.2)

/-- Property `Contract.no_asks`: derived from the canonical NO side
(`self._order_book[0]`), each price complemented. -/
def no_asks (ob : OrderBook) : List BookOrder := ob.no.map complement

/-- Property `Contract.yes_asks`: a copy of the canonical yes side. -/
def yes_asks (ob : OrderBook) : List BookOrder := ob.yes

/-- Property `Contract.no_bids`: derived from the canonical YES side
(`self._order_book[1]`), each price complemented. -/
def no_bids (ob : OrderBook) : List BookOrder := ob.yes.map complement

/-- Property `Contract.yes_bids`: a copy of the canonical no side. -/
def yes_bids (ob : OrderBook) : List BookOrder := ob.no

/-- The derivation of the no-ask view claimed by the spec (C2): the
canonical YES side with each price complemented.  Written from the words
of the spec, for comparison with `no_asks` as translated from the
source. -/
def spec_no_asks (ob : OrderBook) : List BookOrder := ob.yes.map complement

/-- The derivation of the no-bid view claimed by the spec (C2): the
canonical NO side with each price complemented.  Written from the words
of the spec, for comparison with `no_bids` as translated from the
source. -/
def spec_no_bids (ob : OrderBook) : List BookOrder := ob.no.map complement

/-- A list of book orders having ascending prices. -/
def priceAsc (l : List BookOrder) : Prop :=
  l.Pairwise fun a b => a.1 ≤ b.1

/-- A list of book orders having descending prices. -/
def priceDesc (l : List BookOrder) : Prop :=
  l.Pairwise fun a b => b.1 ≤ a.1

instance (l : List BookOrder) : Decidable (priceAsc l) := by
  unfold priceAsc; infer_instance

instance (l : List BookOrder) : Decidable (priceDesc l) := by
  unfold priceDesc; infer_instance

/-- Identifiable error classes raised by the client code. -/
inductive PIError where
  /-- `requests.Response.raise_for_status` on a non-2xx status code. -/
  | httpError (status : ℕ)
  /-- `ValueError`, e.g. from a failed `strptime`. -/
  | valueError
  /-- `NotImplementedError`, raised for an unsupported timezone
  abbreviation. -/
  | notImplementedError
  deriving DecidableEq

/-- An HTTP response: either a 2xx response carrying a parsed JSON body,
or a response whose status code makes `raise_for_status` raise. -/
inductive PyResp (α : Type) where
  | success (body : α)
  | failure (status : ℕ)

/-- Value of a decimal digit character. -/
def digitVal (c : Char) : Option ℕ :=
  if c.isDigit then some (c.toNat - 48) else none

/-- Two-digit decimal field. -/
def digits2 (a b : Char) : Option ℕ := do
  let x ← digitVal a
  let y ← digitVal b
  pure (10 * x + y)

/-- Four-digit decimal field. -/
def digits4 (a b c d : Char) : Option ℕ := do
  let x ← digits2 a b
  let y ← digits2 c d
  pure (100 * x + y)

/-- Gregorian leap-year test, as the `datetime` library applies it. -/
def isLeap (y : ℕ) : Bool :=
  (y % 4 == 0 && y % 100 != 0) || y % 400 == 0

/-- Number of days in a month, used by `strptime` to validate the day
field when it constructs a `datetime`. -/
def daysInMonth (y m : ℕ) : ℕ :=
  if m = 2 then (if isLeap y then 29 else 28)
  else if m = 4 ∨ m = 6 ∨ m = 9 ∨ m = 11 then 30
  else 31

/-- Days from 1970-01-01 to the civil date `y-m-d` (proleptic Gregorian,
valid for the positive years the API reports). -/
def daysFromCivil (y m d : ℤ) : ℤ :=
  let y2 := if m ≤ 2 then y - 1 else y
  let era := y2 / 400
  let yoe := y2 - era * 400
  let mp := (m + 9) % 12
  let doy := (153 * mp + 2) / 5 + d - 1
  let doe := yoe * 365 + yoe / 4 - yoe / 100 + doy
  era * 146097 + doe - 719468

/-- Minutes from the epoch to the civil instant `y-m-d h:mi`. -/
def civilMinutes (y mo d h mi : ℕ) : ℤ :=
  daysFromCivil y mo d * 1440 + h * 60 + mi

/-- Conversion of a 12-hour clock reading plus AM/PM flag to a 24-hour
reading, as `strptime` combines the `%I` and `%p` fields. -/
def hour24 (h12 : ℕ) (isPM : Bool) : ℕ :=
  if isPM then (if h12 = 12 then 12 else h12 + 12)
  else (if h12 = 12 then 0 else h12)

/-- Model of `datetime.strptime(s, "%m/%d/%Y %I:%M %p")` on the
19-character slice taken in `Market._update_info`: yields the civil
components when the slice is well formed, `none` when `strptime` would
raise `ValueError`. -/
def parseCivil19 : List Char → Option (ℕ × ℕ × ℕ × ℕ × ℕ)
  | [m1, m2, '/', d1, d2, '/', y1, y2, y3, y4, ' ', h1, h2, ':', n1, n2, ' ', p1, p2] => do
    let mo ← digits2 m1 m2
    let da ← digits2 d1 d2
    let yr ← digits4 y1 y2 y3 y4
    let h12 ← digits2 h1 h2
    let mi ← digits2 n1 n2
    let pm ← match p1, p2 with
      | 'A', 'M' => some false
      | 'P', 'M' => some true
      | _, _ => none
    if 1 ≤ mo ∧ mo ≤ 12 ∧ 1 ≤ da ∧ da ≤ daysInMonth yr mo ∧
        1 ≤ h12 ∧ h12 ≤ 12 ∧ mi ≤ 59 then
      pure (yr, mo, da, hour24 h12 pm, mi)
    else none
  | _ => none

/-- End-date slice parse, as a timeline instant in minutes. -/
def parseEndCivil (s : String) : Option ℤ :=
  (parseCivil19 s.data).map fun x =>
    civilMinutes x.1 x.2.1 x.2.2.1 x.2.2.2.1 x.2.2.2.2

/-- Model of `str.strip(chars)`: remove leading and trailing characters
belonging to `bad`. -/
def pyStrip (s : String) (bad : List Char) : String :=
  ⟨((s.data.dropWhile bad.contains).reverse.dropWhile bad.contains).reverse⟩

/-- An aware Python datetime: the UTC instant it denotes (minutes since
the epoch) and the UTC offset (minutes, as a function of the instant)
of the timezone it displays in. -/
structure AwareDT where
  instant : ℤ
  dispOffset : ℤ → ℤ

/-- Semantics of `naive.astimezone(tz)` in Python 3: the naive civil
time `d` is interpreted as SYSTEM-LOCAL time (offset `sysOffset`), and
the resulting instant is displayed in `tz`. -/
def naive_astimezone (sysOffset : ℤ → ℤ) (d : ℤ) (tz : ℤ → ℤ) : AwareDT :=
  ⟨d - sysOffset d, tz⟩

/-- Semantics of `aware.astimezone(tz)`: same instant, new display
timezone. -/
def aware_astimezone (a : AwareDT) (tz : ℤ → ℤ) : AwareDT :=
  ⟨a.instant, tz⟩

/-- Semantics of `aware.replace(tzinfo=None)`: the displayed civil time
with the timezone dropped. -/
def replace_tzinfo_none (a : AwareDT) : ℤ :=
  a.instant + a.dispOffset a.instant

/-- The UTC display timezone (`pytz.timezone("UTC")`). -/
def utcZone : ℤ → ℤ := fun _ => 0

/-- The end-date branch of `Market._update_info`: `"N/A"` maps to no end
date; otherwise the first 19 characters go through `strptime` and the
remainder, stripped of spaces and parentheses, must be `"ET"`, in which
case the naive datetime is pushed through
`astimezone(US/Eastern).astimezone(UTC).replace(tzinfo=None)`.
`sysOffset` is the UTC offset of the ambient system timezone and
`etOffset` the offset of US/Eastern, both in minutes. -/
def parseEndDateField (sysOffset etOffset : ℤ → ℤ) (s : String) :
    Except PIError (Option ℤ) :=
  if s = "N/A" then .ok none
  else
    match parseEndCivil (s.take 19) with
    | none => .error .valueError
    | some d =>
      if pyStrip (s.drop 19) [' ', '(', ')'] = "ET" then
        .ok (some (replace_tzinfo_none
          (aware_astimezone (naive_astimezone sysOffset d etOffset) utcZone)))
      else .error .notImplementedError

/-- Modelled from the spec: the end-date conversion the spec requires,
namely interpreting the parsed naive civil time as US Eastern local time
(with the standard/daylight offset holding on that date) and converting
to the equivalent UTC instant, independent of the ambient system
timezone. -/
def spec_end_date_utc (etOffset : ℤ → ℤ) (d : ℤ) : ℤ :=
  d - etOffset d

/-- One entry of the market-contracts payload, as consumed by the
comprehension in `Market._update_contracts`. -/
structure ContractEntry where
  contractId : ℤ
  deriving DecidableEq

/-- The JSON body of the market-info endpoint, with the fields
`Market._update_info` reads.  `dateOpened` is kept pre-parsed (its
`strptime` is assumed to succeed; it is not at issue in any claim). -/
structure InfoPayload where
  marketName : String
  marketType : ℤ
  dateEndString : String
  isActive : Bool
  rule : String
  userHasOwnership : Bool
  userHasTradeHistory : Bool
  userInvestment : ℚ
  userMaxPayout : ℚ
  info : String
  dateOpened : ℤ
  isMarketWatched : Bool
  status : String
  isOpen : Bool
  isOpenStatusMessage : String
  isTradingSuspended : Bool
  isTradingSuspendedMessage : String
  isEngineBusy : Bool
  isEngineBusyMessage : String

/-- The mutable fields of a `Market` object. -/
structure MarketState where
  marketName : String
  marketType : ℤ
  endDate : Option ℤ
  isActive : Bool
  rule : String
  haveOwnership : Bool
  haveTradeHistory : Bool
  investment : ℚ
  maxPayout : ℚ
  info : String
  dateOpened : ℤ
  isMarketWatched : Bool
  status : String
  isOpen : Bool
  isOpenStatusMessage : String
  isTradingSuspended : Bool
  isTradingSuspendedMessage : String
  isEngineBusy : Bool
  isEngineBusyMessage : String
  contractIds : List ℤ

/-- `Market._update_info`: raises on a failed response before touching
any field; otherwise assigns `_market_name` and `_market_type`, then
handles the end date (possibly raising `ValueError` or
`NotImplementedError` with only those two fields mutated), then assigns
the remaining metadata fields.  Returns the post-call state and the
raised error, if any. -/
def market_update_info (sysOffset etOffset : ℤ → ℤ) (st : MarketState)
    (r : PyResp InfoPayload) : MarketState × Option PIError :=
  match r with
  | .failure code => (st, some (.httpError code))
  | .success mi =>
    let st1 := { st with marketName := mi.marketName, marketType := mi.marketType }
    match parseEndDateField sysOffset etOffset mi.dateEndString with
    | .error e => (st1, some e)
    | .ok ed =>
      ({ st1 with
          endDate := ed
          isActive := mi.isActive
          rule := mi.rule
          haveOwnership := mi.userHasOwnership
          haveTradeHistory := mi.userHasTradeHistory
          investment := mi.userInvestment
          maxPayout := mi.userMaxPayout
          info := mi.info
          dateOpened := mi.dateOpened
          isMarketWatched := mi.isMarketWatched
          status := mi.status
          isOpen := mi.isOpen
          isOpenStatusMessage := mi.isOpenStatusMessage
          isTradingSuspended := mi.isTradingSuspended
          isTradingSuspendedMessage := mi.isTradingSuspendedMessage
          isEngineBusy := mi.isEngineBusy
          isEngineBusyMessage := mi.isEngineBusyMessage }, none)

/-- `Market._update_contracts`: raises on a failed response before
mutating; otherwise replaces the contract-id list with the projection of
the payload. -/
def market_update_contracts (st : MarketState)
    (r : PyResp (List ContractEntry)) : MarketState × Option PIError :=
  match r with
  | .failure code => (st, some (.httpError code))
  | .success cs => ({ st with contractIds := cs.map (·.contractId) }, none)

/-- A concrete market-info payload used as a fixture, with the market
name as parameter and no end date. -/
def mkInfoPayload (name : String) : InfoPayload :=
  { marketName := name, marketType := 3, dateEndString := "N/A",
    isActive := true, rule := "r", userHasOwnership := false,
    userHasTradeHistory := false, userInvestment := 0, userMaxPayout := 0,
    info := "i", dateOpened := 0, isMarketWatched := false,
    status := "Open", isOpen := true, isOpenStatusMessage := "",
    isTradingSuspended := false, isTradingSuspendedMessage := "",
    isEngineBusy := false, isEngineBusyMessage := "" }

/-- A concrete pre-call market state used as a fixture. -/
def sampleMarketState : MarketState :=
  { marketName := "old", marketType := 0, endDate := none,
    isActive := false, rule := "", haveOwnership := false,
    haveTradeHistory := false, investment := 0, maxPayout := 0,
    info := "", dateOpened := 0, isMarketWatched := false, status := "",
    isOpen := false, isOpenStatusMessage := "", isTradingSuspended := false,
    isTradingSuspendedMessage := "", isEngineBusy := false,
    isEngineBusyMessage := "", contractIds := [7] }

/-- `Market.update_all`: fetches both responses, then applies
`_update_info` followed by `_update_contracts`.  An exception raised by
the first sub-update propagates, leaving the object with whatever the
first sub-update had already mutated. -/
def market_update_all (sysOffset etOffset : ℤ → ℤ) (st : MarketState)
    (r1 : PyResp InfoPayload) (r2 : PyResp (List ContractEntry)) :
    MarketState × Option PIError :=
  match market_update_info sysOffset etOffset st r1 with
  | (st1, some e) => (st1, some e)
  | (st1, none) => market_update_contracts st1 r2

/-- Model of `datetime.strptime(s, "%Y-%m-%dT%H:%M:%S")`, as seconds
from the epoch; `none` when `strptime` would raise `ValueError`. -/
def parseISO19 : List Char → Option ℤ
  | [y1, y2, y3, y4, '-', m1, m2, '-', d1, d2, 'T', h1, h2, ':', n1, n2, ':', s1, s2] => do
    let yr ← digits4 y1 y2 y3 y4
    let mo ← digits2 m1 m2
    let da ← digits2 d1 d2
    let hh ← digits2 h1 h2
    let mi ← digits2 n1 n2
    let ss ← digits2 s1 s2
    if 1 ≤ mo ∧ mo ≤ 12 ∧ 1 ≤ da ∧ da ≤ daysInMonth yr mo ∧
        hh ≤ 23 ∧ mi ≤ 59 ∧ ss ≤ 59 then
      pure (daysFromCivil yr mo da * 86400 + hh * 3600 + mi * 60 + ss)
    else none
  | _ => none

/-- The date handling in the loop of `Contract._update_shares`: format
`"%Y-%m-%dT%H:%M:%S.%f"` when the string contains a dot (the `%f` field
takes 1 to 6 fractional digits, dropped here: no claim depends on them),
plain `"%Y-%m-%dT%H:%M:%S"` otherwise. -/
def parseShareDate (s : String) : Option ℤ :=
  if s.data.contains '.' then
    match s.data with
    | y1 :: y2 :: y3 :: y4 :: '-' :: m1 :: m2 :: '-' :: d1 :: d2 :: 'T' ::
        h1 :: h2 :: ':' :: n1 :: n2 :: ':' :: s1 :: s2 :: '.' :: frac =>
      if 1 ≤ frac.length ∧ frac.length ≤ 6 ∧ frac.all Char.isDigit then
        parseISO19 [y1, y2, y3, y4, '-', m1, m2, '-', d1, d2, 'T',
          h1, h2, ':', n1, n2, ':', s1, s2]
      else none
    | _ => none
  else parseISO19 s.data

/-- One record of the contract-shares payload, with the fields
`_update_shares` reads. -/
structure ShareRec where
  predictionType : ℤ
  sharesOwned : ℤ
  pricePerShare : ℚ
  dateExecuted : String

/-- A share record after `_update_shares` replaced its `dateExecuted`
string with the parsed datetime. -/
structure ParsedShare where
  predictionType : ℤ
  sharesOwned : ℤ
  pricePerShare : ℚ
  dateExecuted : ℤ

/-- The JSON body of the contract-shares endpoint. -/
structure SharesPayload where
  contractName : String
  shares : List ShareRec

/-- The share-related fields of a `Contract` object. -/
structure SharesState where
  contractName : String
  myPrediction : Option ℤ
  sharesOwned : ℤ
  investment : ℚ
  shareDetails : List ParsedShare

/-- The accumulation loop of `_update_shares`: parse the date of each
record (a malformed one raises `ValueError`, leaving the sums
accumulated so far in place and `share_details` unassigned), then add
the shares owned and the cost `pricePerShare * sharesOwned`. -/
def shares_loop : ℤ → ℚ → List ParsedShare → List ShareRec →
    (ℤ × ℚ × List ParsedShare) × Option PIError
  | so, inv, acc, [] => ((so, inv, acc.reverse), none)
  | so, inv, acc, r :: rest =>
    match parseShareDate r.dateExecuted with
    | none => ((so, inv, acc.reverse), some .valueError)
    | some d =>
      shares_loop (so + r.sharesOwned)
        (inv + r.pricePerShare * (r.sharesOwned : ℚ))
        (⟨r.predictionType, r.sharesOwned, r.pricePerShare, d⟩ :: acc) rest

/-- `Contract._update_shares`: raise on a failed response before
mutating; set the contract name; set `_my_prediction` from the FIRST
record only (`None` when the list is empty); reset both sums to zero
and run the loop; on success store the parsed records as
`share_details`. -/
def update_shares (st : SharesState) (r : PyResp SharesPayload) :
    SharesState × Option PIError :=
  match r with
  | .failure code => (st, some (.httpError code))
  | .success p =>
    let pred : Option ℤ :=
      match p.shares with
      | [] => none
      | s :: _ => some s.predictionType
    match shares_loop 0 0 [] p.shares with
    | ((so, inv, det), none) =>
      ({ st with
          contractName := p.contractName
          myPrediction := pred
          sharesOwned := so
          investment := inv
          shareDetails := det }, none)
    | ((so, inv, _), some e) =>
      ({ st with
          contractName := p.contractName
          myPrediction := pred
          sharesOwned := so
          investment := inv }, some e)

/-- Property `Contract.mean_price_per_share`, i.e.
`self.investment / self.shares_owned`: an unguarded division that raises
`ZeroDivisionError` when no shares are owned, modelled as `none`. -/
def mean_price_per_share (st : SharesState) : Option ℚ :=
  if st.sharesOwned = 0 then none
  else some (st.investment / (st.sharesOwned : ℚ))

/-- A dynamically typed Python value, as relevant to `_post_order`: the
`trade_type` and `quantity` arguments may be ints or strings. -/
inductive PyVal where
  | int (n : ℤ)
  | str (s : String)
  deriving DecidableEq

/-- Python `x in (n₁, ...)` against a tuple of ints: an int compares by
value; a string is never equal to an int, so the test is always False
for a string. -/
def pyMemInts (v : PyVal) (ns : List ℤ) : Bool :=
  match v with
  | .int n => ns.contains n
  | .str _ => false

/-- Python `str(v)` on a value already known to be a string. -/
def pyStrOfStr : PyVal → String
  | .int _ => ""
  | .str s => s

/-- Python `int(x)` on an exact numeric value: truncation toward zero. -/
def pyTrunc (q : ℚ) : ℤ := if 0 ≤ q then ⌊q⌋ else ⌈q⌉

/-- The distinct validation errors of `_post_order`; each constructor is
one `raise` site in the source. -/
inductive TradeError where
  | priceRange
  | quantityType
  | quantityNotPositive
  | ownOppositeSide
  | sellTooMany
  | investmentCap
  deriving DecidableEq

/-- The position fields `_post_order` consults on `self`. -/
structure TradeState where
  myPrediction : Option ℤ
  sharesOwned : ℤ
  investment : ℚ

/-- The body of the POST built at the end of `_post_order`.  The source
wraps each numeric field in `str(...)`; that formatting is dropped here
and the numeric values kept, except for the trade type, which the public
methods already supply as a string. -/
structure PostData where
  pricePerShare : ℤ
  quantity : ℤ
  contractId : ℤ
  tradeType : String
  deriving DecidableEq

/-- `Contract._post_order`.  Note that every membership test compares
`trade_type` against tuples of ints; the public trade methods pass
strings, for which each of those tests is False. -/
def post_order (st : TradeState) (contractId : ℤ) (tradeType : PyVal)
    (price : ℚ) (quantity : PyVal) : Except TradeError PostData :=
  let int_price := pyTrunc (100 * price)
  if ¬ (1 ≤ int_price ∧ int_price ≤ 99) then .error .priceRange
  else
    match quantity with
    | .str _ => .error .quantityType
    | .int q =>
      if q ≤ 0 then .error .quantityNotPositive
      else
        let sideErr : Option TradeError :=
          match st.myPrediction with
          | none => none
          | some pred =>
            if pred ≠ 0 ∧ pyMemInts tradeType [0, 2] = true then
              some .ownOppositeSide
            else if pred = 0 ∧ pyMemInts tradeType [1, 3] = true then
              some .ownOppositeSide
            else none
        match sideErr with
        | some e => .error e
        | none =>
          if q > st.sharesOwned ∧ pyMemInts tradeType [2, 3] = true then
            .error .sellTooMany
          else if pyMemInts tradeType [0, 1] = true ∧
              price * (q : ℚ) + st.investment > 850 then
            .error .investmentCap
          else .ok ⟨int_price, q, contractId, pyStrOfStr tradeType⟩

/-- `Contract.buy_no`: passes the trade type as the STRING "0". -/
def buy_no (st : TradeState) (contractId : ℤ) (price : ℚ)
    (quantity : PyVal) : Except TradeError PostData :=
  post_order st contractId (.str "0") price quantity

/-- `Contract.buy_yes`: passes the trade type as the STRING "1". -/
def buy_yes (st : TradeState) (contractId : ℤ) (price : ℚ)
    (quantity : PyVal) : Except TradeError PostData :=
  post_order st contractId (.str "1") price quantity

/-- `Contract.sell_no`: passes the trade type as the STRING "2". -/
def sell_no (st : TradeState) (contractId : ℤ) (price : ℚ)
    (quantity : PyVal) : Except TradeError PostData :=
  post_order st contractId (.str "2") price quantity

/-- `Contract.sell_yes`: passes the trade type as the STRING "3". -/
def sell_yes (st : TradeState) (contractId : ℤ) (price : ℚ)
    (quantity : PyVal) : Except TradeError PostData :=
  post_order st contractId (.str "3") price quantity

/-- Helper for the spec validation: checks 4 (sell quantity) and 5
(investment cap), reached when the earlier checks pass. -/
def spec_checks45 (st : TradeState) (tradeType q : ℤ) (price : ℚ) :
    Option TradeError :=
  if (tradeType = 2 ∨ tradeType = 3) ∧ q > st.sharesOwned then
    some .sellTooMany
  else if (tradeType = 0 ∨ tradeType = 1) ∧
      price * (q : ℚ) + st.investment > 850 then
    some .investmentCap
  else none

/-- The five-check client-side validation described by the claim, with
the trade type as the integer code the checks name.  Written from the
words of the spec, for comparison with the behavior of the public trade
methods as translated from the source. -/
def spec_validate (st : TradeState) (tradeType : ℤ) (price : ℚ)
    (quantity : PyVal) : Option TradeError :=
  let int_price := pyTrunc (100 * price)
  if ¬ (1 ≤ int_price ∧ int_price ≤ 99) then some .priceRange
  else
    match quantity with
    | .str _ => some .quantityType
    | .int q =>
      if q ≤ 0 then some .quantityNotPositive
      else
        match st.myPrediction with
        | none => spec_checks45 st tradeType q price
        | some pred =>
          if pred ≠ 0 ∧ (tradeType = 0 ∨ tradeType = 2) then
            some .ownOppositeSide
          else if pred = 0 ∧ (tradeType = 1 ∨ tradeType = 3) then
            some .ownOppositeSide
          else spec_checks45 st tradeType q price

/-- Execution of the worker pool of `concurrent_get`: `slots i` is the
state of the future created by `pool.submit(get, urls[i], ...)`, and the
completion order `sched` lists future indices in the order they finish.
Completing future `i` stores the response for `urls[i]` in slot `i`,
regardless of when it completes relative to the others. -/
def runSchedule (fetch : String → α) (urls : List String) :
    (ℕ → Option α) → List ℕ → ℕ → Option α
  | slots, [] => slots
  | slots, i :: rest =>
    runSchedule fetch urls
      (fun j => if j = i then (urls[i]?).map fetch else slots j) rest

/-- `concurrent_get`: one future is submitted per URL in input order,
the futures complete in the arbitrary order `sched`, and the results are
collected positionally (`[f.result() for f in futures]` in submission
order).  `fetch` is the deterministic response of the session for each
URL; a slot still `none` after the schedule models a request whose
`f.result` would raise a timeout.  The worker cap only bounds
concurrency and does not appear in the result. -/
def concurrent_get (fetch : String → α) (urls : List String)
    (sched : List ℕ) : List (Option α) :=
  (List.range urls.length).map (runSchedule fetch urls (fun _ => none) sched)

/-- A heap of Python list objects with elements in `α`: addresses below
`next` are allocated. -/
structure Store (α : Type) where
  next : ℕ
  mem : ℕ → List α

/-- Contents of the list object at address `r`. -/
def readRef (σ : Store α) (r : ℕ) : List α := σ.mem r

/-- In-place mutation of the list object at address `r` (e.g. `append`,
index assignment, `clear`), setting its contents to `xs`. -/
def writeRef (σ : Store α) (r : ℕ) (xs : List α) : Store α :=
  ⟨σ.next, fun j => if j = r then xs else σ.mem j⟩

/-- Allocation of a fresh list object with contents `xs`. -/
def allocRef (σ : Store α) (xs : List α) : ℕ × Store α :=
  (σ.next, ⟨σ.next + 1, fun j => if j = σ.next then xs else σ.mem j⟩)

/-- `lst.copy()`: allocate a fresh list object with the same contents. -/
def pyCopy (σ : Store α) (r : ℕ) : ℕ × Store α :=
  allocRef σ (readRef σ r)

/-- A list comprehension over the contents of the object at `r`: always
allocates a fresh list object. -/
def pyCompr (σ : Store α) (f : List α → List α) (r : ℕ) : ℕ × Store α :=
  allocRef σ (f (readRef σ r))

/-- The list-valued field of a `Market` object, as a heap address. -/
structure MarketRefs where
  contractIdsRef : ℕ

/-- `Market.contract_ids`: returns `self._contract_ids.copy()`. -/
def market_contract_ids (σ : Store ℤ) (m : MarketRefs) : ℕ × Store ℤ :=
  pyCopy σ m.contractIdsRef

/-- The list-valued fields of an `Account` object. -/
structure AccountRefs where
  myMarketIdsRef : ℕ
  myContractIdsRef : ℕ

/-- `Account.my_market_ids`: returns `self._my_market_ids.copy()`. -/
def account_my_market_ids (σ : Store ℤ) (a : AccountRefs) : ℕ × Store ℤ :=
  pyCopy σ a.myMarketIdsRef

/-- `Account.my_contract_ids`: returns `self._my_contract_ids.copy()`. -/
def account_my_contract_ids (σ : Store ℤ) (a : AccountRefs) : ℕ × Store ℤ :=
  pyCopy σ a.myContractIdsRef

/-- An own-order record, the `OwnOrder` namedtuple built by
`Contract._update_my_orders`. -/
structure OwnOrder where
  order_id : ℤ
  contract_id : ℤ
  price : ℚ
  original_quantity : ℤ
  remaining_quantity : ℤ
  date_created : ℤ
  is_processed : Bool

/-- The list-valued fields of a `Contract` object: the two canonical
order-book sides `self._order_book[1]` and `self._order_book[0]`, and
the four `self._my_orders` buckets keyed by trade type. -/
structure ContractRefs where
  yesSideRef : ℕ
  noSideRef : ℕ
  myOrders0Ref : ℕ
  myOrders1Ref : ℕ
  myOrders2Ref : ℕ
  myOrders3Ref : ℕ

/-- `Contract.yes_asks`: `self._order_book[1].copy()`. -/
def contract_yes_asks (σ : Store BookOrder) (c : ContractRefs) :
    ℕ × Store BookOrder :=
  pyCopy σ c.yesSideRef

/-- `Contract.yes_bids`: `self._order_book[0].copy()`. -/
def contract_yes_bids (σ : Store BookOrder) (c : ContractRefs) :
    ℕ × Store BookOrder :=
  pyCopy σ c.noSideRef

/-- `Contract.no_asks`: a comprehension over `self._order_book[0]`. -/
def contract_no_asks (σ : Store BookOrder) (c : ContractRefs) :
    ℕ × Store BookOrder :=
  pyCompr σ (·.map complement) c.noSideRef

/-- `Contract.no_bids`: a comprehension over `self._order_book[1]`. -/
def contract_no_bids (σ : Store BookOrder) (c : ContractRefs) :
    ℕ × Store BookOrder :=
  pyCompr σ (·.map complement) c.yesSideRef

/-- `Contract.my_no_bids`: `self._my_orders[0].copy()`. -/
def contract_my_no_bids (σ : Store OwnOrder) (c : ContractRefs) :
    ℕ × Store OwnOrder :=
  pyCopy σ c.myOrders0Ref

/-- `Contract.my_yes_bids`: `self._my_orders[1].copy()`. -/
def contract_my_yes_bids (σ : Store OwnOrder) (c : ContractRefs) :
    ℕ × Store OwnOrder :=
  pyCopy σ c.myOrders1Ref

/-- `Contract.my_no_asks`: `self._my_orders[2].copy()`. -/
def contract_my_no_asks (σ : Store OwnOrder) (c : ContractRefs) :
    ℕ × Store OwnOrder :=
  pyCopy σ c.myOrders2Ref

/-- `Contract.my_yes_asks`: `self._my_orders[3].copy()`. -/
def contract_my_yes_asks (σ : Store OwnOrder) (c : ContractRefs) :
    ℕ × Store OwnOrder :=
  pyCopy σ c.myOrders3Ref

end PredictIt

open PredictIt

theorem tupleLE_price_le {a b : BookOrder} (h : tupleLE a b) : a.1 ≤ b.1 := by
  rcases h with h | ⟨h, _⟩
  · exact h.le
  · exact h.le

theorem sorted_side_priceAsc {l : List BookOrder}
    (h : l.Sorted tupleLE) : priceAsc l :=
  h.imp fun hab => tupleLE_price_le hab

theorem sorted_side_map_priceDesc {l : List BookOrder}
    (h : l.Sorted tupleLE) : priceDesc (l.map complement) := by
  rw [priceDesc, List.pairwise_map]
  exact h.imp fun hab => by
    simpa [complement] using sub_le_sub_left (tupleLE_price_le hab) 1

/-- C2 counterexample: on the order book built from a payload with yes
side `[(2/5, 10)]` and no side `[(7/10, 5)]`, the code's `no_asks` view
(no side complemented) differs from the spec's claimed derivation (yes
side complemented), so the claimed mapping is false. -/
theorem c2_counterexample :
    ¬ (no_asks (update_order_book ⟨[((2 : ℚ)/5, 10)], [((7 : ℚ)/10, 5)]⟩) =
        spec_no_asks (update_order_book ⟨[((2 : ℚ)/5, 10)], [((7 : ℚ)/10, 5)]⟩) ∧
       no_bids (update_order_book ⟨[((2 : ℚ)/5, 10)], [((7 : ℚ)/10, 5)]⟩) =
        spec_no_bids (update_order_book ⟨[((2 : ℚ)/5, 10)], [((7 : ℚ)/10, 5)]⟩)) := by
  norm_num [no_asks, spec_no_asks, no_bids, spec_no_bids, update_order_book,
    complement, List.insertionSort, List.orderedInsert]

/-- C2 amended: for every canonical order-book state, `yes_asks` is the
canonical yes side unchanged and `yes_bids` the canonical no side
unchanged, but the complemented views are swapped relative to the spec:
`no_asks` is the canonical NO side with each price replaced by `1 - p`,
and `no_bids` is the canonical YES side with each price replaced by
`1 - p` (quantities unchanged in both). -/
theorem c2_views_amended (ob : OrderBook) :
    yes_asks ob = ob.yes ∧
    yes_bids ob = ob.no ∧
    no_asks ob = ob.no.map (fun x => (1 - x.1, x.2)) ∧
    no_bids ob = ob.yes.map (fun x => (1 - x.1, x.2)) :=
  ⟨rfl, rfl, rfl, rfl⟩

/-- C4: for every canonical order-book state, the derived no-bid view is
exactly the canonical yes side with each `(p, q)` mapped to `(1 - p, q)`,
with relative order preserved: element `i` of `no_bids` is the transform
of element `i` of the yes side. -/
theorem c4_no_bids_transform (ob : OrderBook) :
    no_bids ob = ob.yes.map (fun x => (1 - x.1, x.2)) ∧
    (no_bids ob).length = ob.yes.length ∧
    ∀ i : ℕ, (no_bids ob)[i]? = (ob.yes[i]?).map (fun x => (1 - x.1, x.2)) := by
  refine ⟨rfl, by simp [no_bids], fun i => ?_⟩
  rw [no_bids, List.getElem?_map]
  cases ob.yes[i]? <;> rfl

/-- C5 counterexample: after updating from a payload whose yes side is
`[(2/5, 1), (3/5, 1)]`, the derived `no_bids` view is
`[(3/5, 1), (2/5, 1)]`, which is not ascending by price, so the claim
that `no_bids` is always ascending by price is false. -/
theorem c5_counterexample :
    ¬ priceAsc (no_bids (update_order_book
        ⟨[((2 : ℚ)/5, 1), ((3 : ℚ)/5, 1)], []⟩)) := by
  norm_num [priceAsc, no_bids, update_order_book, complement, tupleLE,
    List.insertionSort, List.orderedInsert, List.pairwise_cons]

/-- C5 amended: after every order-book update the canonical yes and no
sides are each sorted ascending by price (lexicographically, regardless
of the payload's order), and each derived view is sorted best price
first: `yes_asks` and `yes_bids` ascending by price, while the
complemented views `no_asks` and `no_bids` are descending by price. -/
theorem c5_sorted_amended (p : OrderBookPayload) :
    ((update_order_book p).yes.Sorted tupleLE ∧
     (update_order_book p).no.Sorted tupleLE) ∧
    priceAsc (yes_asks (update_order_book p)) ∧
    priceAsc (yes_bids (update_order_book p)) ∧
    priceDesc (no_asks (update_order_book p)) ∧
    priceDesc (no_bids (update_order_book p)) := by
  have hy : (update_order_book p).yes.Sorted tupleLE :=
    List.sorted_insertionSort tupleLE p.yesOrders
  have hn : (update_order_book p).no.Sorted tupleLE :=
    List.sorted_insertionSort tupleLE p.noOrders
  exact ⟨⟨hy, hn⟩, sorted_side_priceAsc hy, sorted_side_priceAsc hn,
    sorted_side_map_priceDesc hn, sorted_side_map_priceDesc hy⟩

theorem market_update_info_contractIds (sysOff etOff : ℤ → ℤ)
    (st : MarketState) (r : PyResp InfoPayload) :
    (market_update_info sysOff etOff st r).1.contractIds = st.contractIds := by
  cases r with
  | failure code => rfl
  | success mi =>
    simp only [market_update_info]
    split <;> rfl

theorem market_update_info_marketName (sysOff etOff : ℤ → ℤ)
    (st : MarketState) (mi : InfoPayload) :
    (market_update_info sysOff etOff st (.success mi)).1.marketName =
      mi.marketName := by
  simp only [market_update_info]
  split <;> rfl

/-- C3 counterexample: a refresh-all whose first (info) response
succeeds and whose second (contracts) response is an HTTP failure ends
with the call raising, the contract-id list unchanged, but the
market-metadata fields already overwritten: the market name has changed
from its pre-call value, so the two sub-updates are not atomic as a
pair. -/
theorem c3_counterexample :
    (market_update_all (fun _ => 0) (fun _ => -300) sampleMarketState
        (.success (mkInfoPayload "new")) (.failure 500)).2.isSome = true ∧
    (market_update_all (fun _ => 0) (fun _ => -300) sampleMarketState
        (.success (mkInfoPayload "new")) (.failure 500)).1.contractIds =
      sampleMarketState.contractIds ∧
    ¬ ((market_update_all (fun _ => 0) (fun _ => -300) sampleMarketState
        (.success (mkInfoPayload "new")) (.failure 500)).1.marketName =
      sampleMarketState.marketName) := by
  refine ⟨rfl, rfl, ?_⟩
  intro h
  simp [market_update_all, market_update_info, mkInfoPayload,
    sampleMarketState, parseEndDateField, market_update_contracts] at h

/-- C3 amended: each sub-update of `Market.update_all` validates its own
response and raises before mutating its own field group, but atomicity
holds only per group, not across the pair: if the first (info) response
failed, nothing is mutated; if the info response succeeded and the
second (contracts) response failed, the metadata group is fully applied
while the contract-id list is left unchanged and the error is raised;
when both succeed, both groups are applied and no error is raised. -/
theorem c3_update_all_amended (sysOff etOff : ℤ → ℤ) (st : MarketState)
    (p : InfoPayload) (cs : List ContractEntry) (c1 c2 : ℕ)
    (h : (market_update_info sysOff etOff st (.success p)).2 = none) :
    market_update_all sysOff etOff st (.failure c1) (.success cs) =
      (st, some (.httpError c1)) ∧
    market_update_all sysOff etOff st (.failure c1) (.failure c2) =
      (st, some (.httpError c1)) ∧
    (market_update_all sysOff etOff st (.success p) (.failure c2)).1.contractIds =
      st.contractIds ∧
    (market_update_all sysOff etOff st (.success p) (.failure c2)).1 =
      (market_update_info sysOff etOff st (.success p)).1 ∧
    (market_update_all sysOff etOff st (.success p) (.failure c2)).2 =
      some (.httpError c2) ∧
    (market_update_all sysOff etOff st (.success p) (.success cs)).1.marketName =
      p.marketName ∧
    (market_update_all sysOff etOff st (.success p) (.success cs)).1.contractIds =
      cs.map (·.contractId) ∧
    (market_update_all sysOff etOff st (.success p) (.success cs)).2 = none := by
  rcases hv : market_update_info sysOff etOff st (.success p) with ⟨st1, e1⟩
  have he : e1 = none := by rw [hv] at h; exact h
  subst he
  have h1 : st1.contractIds = st.contractIds := by
    have h2 := market_update_info_contractIds sysOff etOff st (.success p)
    rw [hv] at h2; exact h2
  have h2 : st1.marketName = p.marketName := by
    have h3 := market_update_info_marketName sysOff etOff st p
    rw [hv] at h3; exact h3
  refine ⟨rfl, rfl, ?_, ?_, ?_, ?_, ?_, ?_⟩ <;>
    simp only [market_update_all, hv, market_update_contracts]
  · exact h1
  · exact h2

/-- C3 witness: the amended statement instantiated at the concrete
fixture state and payloads, with the info sub-update succeeding. -/
theorem c3_update_all_amended_witness :
    market_update_all (fun _ => 0) (fun _ => -300) sampleMarketState
      (.failure 500) (.success [⟨5⟩]) = (sampleMarketState, some (.httpError 500)) ∧
    market_update_all (fun _ => 0) (fun _ => -300) sampleMarketState
      (.failure 500) (.failure 404) = (sampleMarketState, some (.httpError 500)) ∧
    (market_update_all (fun _ => 0) (fun _ => -300) sampleMarketState
      (.success (mkInfoPayload "new")) (.failure 404)).1.contractIds =
      sampleMarketState.contractIds ∧
    (market_update_all (fun _ => 0) (fun _ => -300) sampleMarketState
      (.success (mkInfoPayload "new")) (.failure 404)).1 =
      (market_update_info (fun _ => 0) (fun _ => -300) sampleMarketState
        (.success (mkInfoPayload "new"))).1 ∧
    (market_update_all (fun _ => 0) (fun _ => -300) sampleMarketState
      (.success (mkInfoPayload "new")) (.failure 404)).2 =
      some (.httpError 404) ∧
    (market_update_all (fun _ => 0) (fun _ => -300) sampleMarketState
      (.success (mkInfoPayload "new")) (.success [⟨5⟩])).1.marketName =
      (mkInfoPayload "new").marketName ∧
    (market_update_all (fun _ => 0) (fun _ => -300) sampleMarketState
      (.success (mkInfoPayload "new")) (.success [⟨5⟩])).1.contractIds =
      ([⟨5⟩] : List ContractEntry).map (·.contractId) ∧
    (market_update_all (fun _ => 0) (fun _ => -300) sampleMarketState
      (.success (mkInfoPayload "new")) (.success [⟨5⟩])).2 = none :=
  c3_update_all_amended (fun _ => 0) (fun _ => -300) sampleMarketState
    (mkInfoPayload "new") [⟨5⟩] 500 404 rfl

/-- C6: the end-date handling is buggy for `"ET"` strings.  At the
failing input `"03/01/2024 09:00 PM (ET)"` with the ambient system
timezone being UTC, the code returns the parsed civil time unchanged
(2024-03-01 21:00) because `astimezone` on a naive datetime interprets
it as SYSTEM-LOCAL time, not as US Eastern as the adjacent comment
claims; the spec-required result is the matching UTC instant 2024-03-02
02:00 (EST is UTC-05:00 on that date).  The result moreover varies with
the ambient system offset.  The `"N/A"` and unsupported-abbreviation
branches do behave as claimed. -/
theorem c6_end_date_not_converted :
    parseEndDateField (fun _ => 0) (fun _ => -300) "03/01/2024 09:00 PM (ET)" =
      .ok (some (civilMinutes 2024 3 1 21 0)) ∧
    spec_end_date_utc (fun _ => -300) (civilMinutes 2024 3 1 21 0) =
      civilMinutes 2024 3 2 2 0 ∧
    ¬ (parseEndDateField (fun _ => 0) (fun _ => -300) "03/01/2024 09:00 PM (ET)" =
      .ok (some (spec_end_date_utc (fun _ => -300) (civilMinutes 2024 3 1 21 0)))) ∧
    ¬ (parseEndDateField (fun _ => -300) (fun _ => -300) "03/01/2024 09:00 PM (ET)" =
      parseEndDateField (fun _ => 0) (fun _ => -300) "03/01/2024 09:00 PM (ET)") ∧
    parseEndDateField (fun _ => 0) (fun _ => -300) "N/A" = .ok none ∧
    parseEndDateField (fun _ => 0) (fun _ => -300) "03/01/2024 09:00 PM (PT)" =
      .error .notImplementedError := by
  refine ⟨rfl, rfl, ?_, ?_, rfl, rfl⟩
  · intro h
    rw [show parseEndDateField (fun _ => 0) (fun _ => -300)
        "03/01/2024 09:00 PM (ET)" = .ok (some 28488780) from rfl] at h
    rw [show spec_end_date_utc (fun _ => -300) (civilMinutes 2024 3 1 21 0) =
        28489080 from rfl] at h
    simp at h
  · intro h
    rw [show parseEndDateField (fun _ => -300) (fun _ => -300)
        "03/01/2024 09:00 PM (ET)" = .ok (some 28489080) from rfl] at h
    rw [show parseEndDateField (fun _ => 0) (fun _ => -300)
        "03/01/2024 09:00 PM (ET)" = .ok (some 28488780) from rfl] at h
    simp at h

/-- C1: the five-check validation is bypassed for checks 3 to 5.  At
states where the claim requires the sell-quantity, opposite-side, or
investment-cap error, the public methods reach the POST instead, because
they pass the trade type as a string and every membership test in
`_post_order` compares it against ints.  The companion `spec_validate`
values show the error the claim (and the docstrings of the methods)
require at each input. -/
theorem c1_checks_bypassed :
    sell_yes ⟨none, 0, 0⟩ 123 (1/2) (.int 10) = .ok ⟨50, 10, 123, "3"⟩ ∧
    spec_validate ⟨none, 0, 0⟩ 3 (1/2) (.int 10) = some .sellTooMany ∧
    buy_no ⟨some 1, 10, 5⟩ 123 (1/2) (.int 10) = .ok ⟨50, 10, 123, "0"⟩ ∧
    spec_validate ⟨some 1, 10, 5⟩ 0 (1/2) (.int 10) = some .ownOppositeSide ∧
    buy_yes ⟨none, 0, 848⟩ 123 (1/2) (.int 10) = .ok ⟨50, 10, 123, "1"⟩ ∧
    spec_validate ⟨none, 0, 848⟩ 1 (1/2) (.int 10) = some .investmentCap := by
  refine ⟨?_, ?_, ?_, ?_, ?_, ?_⟩
  · norm_num [sell_yes, post_order, pyTrunc, pyMemInts, pyStrOfStr]
  · norm_num [spec_validate, spec_checks45, pyTrunc]
  · norm_num [buy_no, post_order, pyTrunc, pyMemInts, pyStrOfStr]
  · norm_num [spec_validate, spec_checks45, pyTrunc]
  · norm_num [buy_yes, post_order, pyTrunc, pyMemInts, pyStrOfStr]
  · norm_num [spec_validate, spec_checks45, pyTrunc]

theorem shares_loop_spec (l : List ShareRec) :
    ∀ (so : ℤ) (inv : ℚ) (acc : List ParsedShare),
    (∀ r ∈ l, (parseShareDate r.dateExecuted).isSome = true) →
    (shares_loop so inv acc l).2 = none ∧
    (shares_loop so inv acc l).1.1 = so + (l.map (·.sharesOwned)).sum ∧
    (shares_loop so inv acc l).1.2.1 =
      inv + (l.map fun r => r.pricePerShare * (r.sharesOwned : ℚ)).sum := by
  induction l with
  | nil => intro so inv acc _; simp [shares_loop]
  | cons r rest ih =>
    intro so inv acc h
    obtain ⟨d, hd⟩ := Option.isSome_iff_exists.mp
      (h r (List.mem_cons_self r rest))
    have hrest := ih (so + r.sharesOwned)
      (inv + r.pricePerShare * (r.sharesOwned : ℚ))
      (⟨r.predictionType, r.sharesOwned, r.pricePerShare, d⟩ :: acc)
      (fun x hx => h x (List.mem_cons_of_mem r hx))
    simp only [shares_loop, hd]
    refine ⟨hrest.1, ?_, ?_⟩
    · rw [hrest.2.1]; simp [add_assoc]
    · rw [hrest.2.2]; simp [add_assoc]

/-- C9: after a successful shares update, `my_prediction` is `None` iff
the share-record list is empty and otherwise is the `predictionType` of
the FIRST record only; `shares_owned` is the sum of `sharesOwned` over
all records; and `investment` is the sum of
`pricePerShare * sharesOwned` over all records. -/
theorem c9_update_shares (st : SharesState) (p : SharesPayload)
    (h : ∀ r ∈ p.shares, (parseShareDate r.dateExecuted).isSome = true) :
    (update_shares st (.success p)).2 = none ∧
    ((update_shares st (.success p)).1.myPrediction = none ↔ p.shares = []) ∧
    (update_shares st (.success p)).1.myPrediction =
      p.shares.head?.map (·.predictionType) ∧
    (update_shares st (.success p)).1.sharesOwned =
      (p.shares.map (·.sharesOwned)).sum ∧
    (update_shares st (.success p)).1.investment =
      (p.shares.map fun r => r.pricePerShare * (r.sharesOwned : ℚ)).sum := by
  have hl := shares_loop_spec p.shares 0 0 [] h
  rcases hv : shares_loop 0 0 [] p.shares with ⟨⟨so, inv, det⟩, err⟩
  rw [hv] at hl
  have he : err = none := hl.1
  subst he
  have hso : so = (p.shares.map (·.sharesOwned)).sum := by
    have h2 := hl.2.1; rw [zero_add] at h2; exact h2
  have hinv : inv = (p.shares.map fun r =>
      r.pricePerShare * (r.sharesOwned : ℚ)).sum := by
    have h2 := hl.2.2; rw [zero_add] at h2; exact h2
  have hpred : (update_shares st (.success p)).1.myPrediction =
      p.shares.head?.map (·.predictionType) := by
    simp only [update_shares, hv]
    cases p.shares <;> rfl
  refine ⟨?_, ?_, hpred, ?_, ?_⟩
  · simp only [update_shares, hv]
  · rw [hpred]
    cases p.shares <;> simp
  · simp only [update_shares, hv]
    exact hso
  · simp only [update_shares, hv]
    exact hinv

/-- C9 witness: the statement instantiated at a concrete two-record
payload whose dates are well formed in both accepted formats. -/
theorem c9_update_shares_witness :
    (update_shares ⟨"c", none, 0, 0, []⟩ (.success ⟨"c",
      [⟨1, 3, 2, "2024-01-02T03:04:05.123456"⟩,
       ⟨1, 2, 1, "2024-01-02T03:04:05"⟩]⟩)).2 = none ∧
    ((update_shares ⟨"c", none, 0, 0, []⟩ (.success ⟨"c",
      [⟨1, 3, 2, "2024-01-02T03:04:05.123456"⟩,
       ⟨1, 2, 1, "2024-01-02T03:04:05"⟩]⟩)).1.myPrediction = none ↔
      ([⟨1, 3, 2, "2024-01-02T03:04:05.123456"⟩,
        ⟨1, 2, 1, "2024-01-02T03:04:05"⟩] : List ShareRec) = []) ∧
    (update_shares ⟨"c", none, 0, 0, []⟩ (.success ⟨"c",
      [⟨1, 3, 2, "2024-01-02T03:04:05.123456"⟩,
       ⟨1, 2, 1, "2024-01-02T03:04:05"⟩]⟩)).1.myPrediction =
      ([⟨1, 3, 2, "2024-01-02T03:04:05.123456"⟩,
        ⟨1, 2, 1, "2024-01-02T03:04:05"⟩] : List ShareRec).head?.map
          (·.predictionType) ∧
    (update_shares ⟨"c", none, 0, 0, []⟩ (.success ⟨"c",
      [⟨1, 3, 2, "2024-01-02T03:04:05.123456"⟩,
       ⟨1, 2, 1, "2024-01-02T03:04:05"⟩]⟩)).1.sharesOwned =
      (([⟨1, 3, 2, "2024-01-02T03:04:05.123456"⟩,
         ⟨1, 2, 1, "2024-01-02T03:04:05"⟩] : List ShareRec).map
           (·.sharesOwned)).sum ∧
    (update_shares ⟨"c", none, 0, 0, []⟩ (.success ⟨"c",
      [⟨1, 3, 2, "2024-01-02T03:04:05.123456"⟩,
       ⟨1, 2, 1, "2024-01-02T03:04:05"⟩]⟩)).1.investment =
      (([⟨1, 3, 2, "2024-01-02T03:04:05.123456"⟩,
         ⟨1, 2, 1, "2024-01-02T03:04:05"⟩] : List ShareRec).map
           fun r => r.pricePerShare * (r.sharesOwned : ℚ)).sum :=
  c9_update_shares ⟨"c", none, 0, 0, []⟩
    ⟨"c", [⟨1, 3, 2, "2024-01-02T03:04:05.123456"⟩,
           ⟨1, 2, 1, "2024-01-02T03:04:05"⟩]⟩
    (by decide)

/-- C8: `mean_price_per_share` divides `investment` by `shares_owned`
with no guard, so it is only well defined when shares are owned: after
an update whose payload has an empty share list, `shares_owned` and
`investment` are both 0 and evaluating the property hits a division by
zero (modelled as `none`); whenever `shares_owned` is positive it equals
`investment / shares_owned`. -/
theorem c8_mean_price_per_share (st0 stz stp : SharesState)
    (p : SharesPayload) (hp : p.shares = [])
    (hz : stz.sharesOwned = 0) (hpos : 0 < stp.sharesOwned) :
    (update_shares st0 (.success p)).1.sharesOwned = 0 ∧
    (update_shares st0 (.success p)).1.investment = 0 ∧
    mean_price_per_share (update_shares st0 (.success p)).1 = none ∧
    mean_price_per_share stz = none ∧
    mean_price_per_share stp =
      some (stp.investment / (stp.sharesOwned : ℚ)) := by
  rcases p with ⟨nm, sh⟩
  cases hp
  refine ⟨rfl, rfl, rfl, ?_, ?_⟩
  · simp [mean_price_per_share, hz]
  · simp [mean_price_per_share, hpos.ne.symm]

/-- C8 witness: the statement instantiated at concrete states, one with
zero shares owned and one holding 4 shares at a total cost of 6. -/
theorem c8_mean_price_per_share_witness :
    (update_shares ⟨"c", none, 0, 0, []⟩ (.success ⟨"c", []⟩)).1.sharesOwned = 0 ∧
    (update_shares ⟨"c", none, 0, 0, []⟩ (.success ⟨"c", []⟩)).1.investment = 0 ∧
    mean_price_per_share (update_shares ⟨"c", none, 0, 0, []⟩
      (.success ⟨"c", []⟩)).1 = none ∧
    mean_price_per_share ⟨"c", none, 0, 0, []⟩ = none ∧
    mean_price_per_share ⟨"c", some 1, 4, 6, []⟩ =
      some ((6 : ℚ) / ((4 : ℤ) : ℚ)) :=
  c8_mean_price_per_share ⟨"c", none, 0, 0, []⟩ ⟨"c", none, 0, 0, []⟩
    ⟨"c", some 1, 4, 6, []⟩ ⟨"c", []⟩ rfl rfl (by decide)

theorem runSchedule_not_mem (fetch : String → α) (urls : List String) :
    ∀ (sched : List ℕ) (slots : ℕ → Option α) (i : ℕ), i ∉ sched →
      runSchedule fetch urls slots sched i = slots i := by
  intro sched
  induction sched with
  | nil => intro slots i _; rfl
  | cons k rest ih =>
    intro slots i hi
    have h1 : i ∉ rest := fun hm => hi (List.mem_cons_of_mem k hm)
    have h2 : i ≠ k := fun he => hi (he ▸ List.mem_cons_self k rest)
    simp only [runSchedule]
    rw [ih _ i h1]
    simp [h2]

theorem runSchedule_mem (fetch : String → α) (urls : List String) :
    ∀ (sched : List ℕ) (slots : ℕ → Option α) (i : ℕ), i ∈ sched →
      runSchedule fetch urls slots sched i = (urls[i]?).map fetch := by
  intro sched
  induction sched with
  | nil => intro slots i hi; exact absurd hi (List.not_mem_nil i)
  | cons k rest ih =>
    intro slots i hi
    by_cases hr : i ∈ rest
    · simp only [runSchedule]
      exact ih _ i hr
    · have hik : i = k := by
        rcases List.mem_cons.mp hi with h | h
        · exact h
        · exact absurd h hr
      subst hik
      simp only [runSchedule]
      rw [runSchedule_not_mem fetch urls rest _ i hr]
      simp

/-- C7: whenever every submitted request completes (in an arbitrary
completion order `sched`), `concurrent_get` returns one result per
locator, and the result in position `i` is the response for locator `i`:
the returned list is the input list mapped through the session,
independent of the completion order. -/
theorem c7_concurrent_get_positional {α : Type} (fetch : String → α)
    (urls : List String) (sched : List ℕ)
    (h : ∀ i, i < urls.length → i ∈ sched) :
    (concurrent_get fetch urls sched).length = urls.length ∧
    concurrent_get fetch urls sched = urls.map (fun u => some (fetch u)) := by
  have hmain : concurrent_get fetch urls sched =
      urls.map (fun u => some (fetch u)) := by
    apply List.ext_getElem?
    intro i
    simp only [concurrent_get, List.getElem?_map]
    by_cases hlt : i < urls.length
    · rw [List.getElem?_range hlt, List.getElem?_eq_getElem hlt,
        Option.map_some', Option.map_some']
      exact congrArg some (by
        rw [runSchedule_mem fetch urls sched _ i (h i hlt),
          List.getElem?_eq_getElem hlt, Option.map_some'])
    · have h1 : (List.range urls.length)[i]? = none :=
        List.getElem?_eq_none (by rw [List.length_range]; omega)
      have h2 : urls[i]? = none := List.getElem?_eq_none (by omega)
      rw [h1, h2]
      rfl
  exact ⟨by rw [hmain]; simp, hmain⟩

/-- C7 witness: three locators completing in the scrambled order
2, 0, 1 still produce positionally matched results. -/
theorem c7_concurrent_get_positional_witness :
    (∀ i, i < (["a", "bb", "ccc"] : List String).length →
      i ∈ ([2, 0, 1] : List ℕ)) ∧
    (concurrent_get (fun u => u.length) ["a", "bb", "ccc"] [2, 0, 1]).length =
      (["a", "bb", "ccc"] : List String).length ∧
    concurrent_get (fun u => u.length) ["a", "bb", "ccc"] [2, 0, 1] =
      (["a", "bb", "ccc"] : List String).map (fun u => some u.length) :=
  ⟨by decide,
   c7_concurrent_get_positional (fun u => u.length) ["a", "bb", "ccc"]
     [2, 0, 1] (by decide)⟩

theorem pyCompr_frame {α : Type} (σ : Store α) (f : List α → List α)
    (r : ℕ) (hr : r < σ.next) (xs : List α) :
    readRef (writeRef (pyCompr σ f r).2 (pyCompr σ f r).1 xs) r =
      readRef σ r ∧
    readRef (pyCompr σ f r).2 (pyCompr σ f r).1 = f (readRef σ r) := by
  constructor
  · simp [pyCompr, allocRef, readRef, writeRef, hr.ne]
  · simp [pyCompr, allocRef, readRef]

theorem pyCopy_frame {α : Type} (σ : Store α) (r : ℕ) (hr : r < σ.next)
    (xs : List α) :
    readRef (writeRef (pyCopy σ r).2 (pyCopy σ r).1 xs) r = readRef σ r ∧
    readRef (pyCopy σ r).2 (pyCopy σ r).1 = readRef σ r := by
  constructor
  · simp [pyCopy, allocRef, readRef, writeRef, hr.ne]
  · simp [pyCopy, allocRef, readRef]

/-- C10: every list-valued accessor returns a freshly allocated list
object (via `copy()` or a comprehension), so mutating the returned list
leaves the internal field unchanged, and the contents returned agree
with the internal field at the time of the read (hence two successive
reads with no intervening refresh return equal lists). -/
theorem c10_accessors_return_copies
    (σz : Store ℤ) (σb : Store BookOrder) (σo : Store OwnOrder)
    (m : MarketRefs) (a : AccountRefs) (c : ContractRefs)
    (xsz : List ℤ) (xsb : List BookOrder) (xso : List OwnOrder)
    (hm : m.contractIdsRef < σz.next)
    (ha1 : a.myMarketIdsRef < σz.next)
    (ha2 : a.myContractIdsRef < σz.next)
    (hy : c.yesSideRef < σb.next) (hn : c.noSideRef < σb.next)
    (h0 : c.myOrders0Ref < σo.next) (h1 : c.myOrders1Ref < σo.next)
    (h2 : c.myOrders2Ref < σo.next) (h3 : c.myOrders3Ref < σo.next) :
    (readRef (writeRef (market_contract_ids σz m).2
        (market_contract_ids σz m).1 xsz) m.contractIdsRef =
      readRef σz m.contractIdsRef ∧
     readRef (market_contract_ids σz m).2 (market_contract_ids σz m).1 =
      readRef σz m.contractIdsRef) ∧
    (readRef (writeRef (account_my_market_ids σz a).2
        (account_my_market_ids σz a).1 xsz) a.myMarketIdsRef =
      readRef σz a.myMarketIdsRef ∧
     readRef (account_my_market_ids σz a).2 (account_my_market_ids σz a).1 =
      readRef σz a.myMarketIdsRef) ∧
    (readRef (writeRef (account_my_contract_ids σz a).2
        (account_my_contract_ids σz a).1 xsz) a.myContractIdsRef =
      readRef σz a.myContractIdsRef ∧
     readRef (account_my_contract_ids σz a).2 (account_my_contract_ids σz a).1 =
      readRef σz a.myContractIdsRef) ∧
    (readRef (writeRef (contract_yes_asks σb c).2
        (contract_yes_asks σb c).1 xsb) c.yesSideRef =
      readRef σb c.yesSideRef ∧
     readRef (contract_yes_asks σb c).2 (contract_yes_asks σb c).1 =
      readRef σb c.yesSideRef) ∧
    (readRef (writeRef (contract_yes_bids σb c).2
        (contract_yes_bids σb c).1 xsb) c.noSideRef =
      readRef σb c.noSideRef ∧
     readRef (contract_yes_bids σb c).2 (contract_yes_bids σb c).1 =
      readRef σb c.noSideRef) ∧
    (readRef (writeRef (contract_no_asks σb c).2
        (contract_no_asks σb c).1 xsb) c.noSideRef =
      readRef σb c.noSideRef ∧
     readRef (contract_no_asks σb c).2 (contract_no_asks σb c).1 =
      (readRef σb c.noSideRef).map complement) ∧
    (readRef (writeRef (contract_no_bids σb c).2
        (contract_no_bids σb c).1 xsb) c.yesSideRef =
      readRef σb c.yesSideRef ∧
     readRef (contract_no_bids σb c).2 (contract_no_bids σb c).1 =
      (readRef σb c.yesSideRef).map complement) ∧
    (readRef (writeRef (contract_my_no_bids σo c).2
        (contract_my_no_bids σo c).1 xso) c.myOrders0Ref =
      readRef σo c.myOrders0Ref ∧
     readRef (contract_my_no_bids σo c).2 (contract_my_no_bids σo c).1 =
      readRef σo c.myOrders0Ref) ∧
    (readRef (writeRef (contract_my_yes_bids σo c).2
        (contract_my_yes_bids σo c).1 xso) c.myOrders1Ref =
      readRef σo c.myOrders1Ref ∧
     readRef (contract_my_yes_bids σo c).2 (contract_my_yes_bids σo c).1 =
      readRef σo c.myOrders1Ref) ∧
    (readRef (writeRef (contract_my_no_asks σo c).2
        (contract_my_no_asks σo c).1 xso) c.myOrders2Ref =
      readRef σo c.myOrders2Ref ∧
     readRef (contract_my_no_asks σo c).2 (contract_my_no_asks σo c).1 =
      readRef σo c.myOrders2Ref) ∧
    (readRef (writeRef (contract_my_yes_asks σo c).2
        (contract_my_yes_asks σo c).1 xso) c.myOrders3Ref =
      readRef σo c.myOrders3Ref ∧
     readRef (contract_my_yes_asks σo c).2 (contract_my_yes_asks σo c).1 =
      readRef σo c.myOrders3Ref) :=
  ⟨pyCopy_frame σz m.contractIdsRef hm xsz,
   pyCopy_frame σz a.myMarketIdsRef ha1 xsz,
   pyCopy_frame σz a.myContractIdsRef ha2 xsz,
   pyCopy_frame σb c.yesSideRef hy xsb,
   pyCopy_frame σb c.noSideRef hn xsb,
   pyCompr_frame σb (·.map complement) c.noSideRef hn xsb,
   pyCompr_frame σb (·.map complement) c.yesSideRef hy xsb,
   pyCopy_frame σo c.myOrders0Ref h0 xso,
   pyCopy_frame σo c.myOrders1Ref h1 xso,
   pyCopy_frame σo c.myOrders2Ref h2 xso,
   pyCopy_frame σo c.myOrders3Ref h3 xso⟩

/-- C10 witness: the statement instantiated at a concrete three-object
heap and concrete mutations. -/
theorem c10_accessors_return_copies_witness :
    (readRef (writeRef (market_contract_ids ⟨3, fun _ => [7]⟩ ⟨0⟩).2
        (market_contract_ids ⟨3, fun _ => [7]⟩ ⟨0⟩).1 [9]) (0 : ℕ) =
      readRef ⟨3, fun _ => [7]⟩ (0 : ℕ) ∧
     readRef (market_contract_ids ⟨3, fun _ => [7]⟩ ⟨0⟩).2
        (market_contract_ids ⟨3, fun _ => [7]⟩ ⟨0⟩).1 =
      readRef ⟨3, fun _ => [7]⟩ (0 : ℕ)) ∧
    (readRef (writeRef (account_my_market_ids ⟨3, fun _ => [7]⟩ ⟨1, 2⟩).2
        (account_my_market_ids ⟨3, fun _ => [7]⟩ ⟨1, 2⟩).1 [9]) (1 : ℕ) =
      readRef ⟨3, fun _ => [7]⟩ (1 : ℕ) ∧
     readRef (account_my_market_ids ⟨3, fun _ => [7]⟩ ⟨1, 2⟩).2
        (account_my_market_ids ⟨3, fun _ => [7]⟩ ⟨1, 2⟩).1 =
      readRef ⟨3, fun _ => [7]⟩ (1 : ℕ)) ∧
    (readRef (writeRef (account_my_contract_ids ⟨3, fun _ => [7]⟩ ⟨1, 2⟩).2
        (account_my_contract_ids ⟨3, fun _ => [7]⟩ ⟨1, 2⟩).1 [9]) (2 : ℕ) =
      readRef ⟨3, fun _ => [7]⟩ (2 : ℕ) ∧
     readRef (account_my_contract_ids ⟨3, fun _ => [7]⟩ ⟨1, 2⟩).2
        (account_my_contract_ids ⟨3, fun _ => [7]⟩ ⟨1, 2⟩).1 =
      readRef ⟨3, fun _ => [7]⟩ (2 : ℕ)) ∧
    (readRef (writeRef (contract_yes_asks ⟨6, fun _ => [((1 : ℚ)/2, 5)]⟩
        ⟨0, 1, 2, 3, 4, 5⟩).2 (contract_yes_asks ⟨6, fun _ => [((1 : ℚ)/2, 5)]⟩
        ⟨0, 1, 2, 3, 4, 5⟩).1 []) (0 : ℕ) =
      readRef ⟨6, fun _ => [((1 : ℚ)/2, 5)]⟩ (0 : ℕ) ∧
     readRef (contract_yes_asks ⟨6, fun _ => [((1 : ℚ)/2, 5)]⟩
        ⟨0, 1, 2, 3, 4, 5⟩).2 (contract_yes_asks ⟨6, fun _ => [((1 : ℚ)/2, 5)]⟩
        ⟨0, 1, 2, 3, 4, 5⟩).1 =
      readRef ⟨6, fun _ => [((1 : ℚ)/2, 5)]⟩ (0 : ℕ)) ∧
    (readRef (writeRef (contract_yes_bids ⟨6, fun _ => [((1 : ℚ)/2, 5)]⟩
        ⟨0, 1, 2, 3, 4, 5⟩).2 (contract_yes_bids ⟨6, fun _ => [((1 : ℚ)/2, 5)]⟩
        ⟨0, 1, 2, 3, 4, 5⟩).1 []) (1 : ℕ) =
      readRef ⟨6, fun _ => [((1 : ℚ)/2, 5)]⟩ (1 : ℕ) ∧
     readRef (contract_yes_bids ⟨6, fun _ => [((1 : ℚ)/2, 5)]⟩
        ⟨0, 1, 2, 3, 4, 5⟩).2 (contract_yes_bids ⟨6, fun _ => [((1 : ℚ)/2, 5)]⟩
        ⟨0, 1, 2, 3, 4, 5⟩).1 =
      readRef ⟨6, fun _ => [((1 : ℚ)/2, 5)]⟩ (1 : ℕ)) ∧
    (readRef (writeRef (contract_no_asks ⟨6, fun _ => [((1 : ℚ)/2, 5)]⟩
        ⟨0, 1, 2, 3, 4, 5⟩).2 (contract_no_asks ⟨6, fun _ => [((1 : ℚ)/2, 5)]⟩
        ⟨0, 1, 2, 3, 4, 5⟩).1 []) (1 : ℕ) =
      readRef ⟨6, fun _ => [((1 : ℚ)/2, 5)]⟩ (1 : ℕ) ∧
     readRef (contract_no_asks ⟨6, fun _ => [((1 : ℚ)/2, 5)]⟩
        ⟨0, 1, 2, 3, 4, 5⟩).2 (contract_no_asks ⟨6, fun _ => [((1 : ℚ)/2, 5)]⟩
        ⟨0, 1, 2, 3, 4, 5⟩).1 =
      (readRef ⟨6, fun _ => [((1 : ℚ)/2, 5)]⟩ (1 : ℕ)).map complement) ∧
    (readRef (writeRef (contract_no_bids ⟨6, fun _ => [((1 : ℚ)/2, 5)]⟩
        ⟨0, 1, 2, 3, 4, 5⟩).2 (contract_no_bids ⟨6, fun _ => [((1 : ℚ)/2, 5)]⟩
        ⟨0, 1, 2, 3, 4, 5⟩).1 []) (0 : ℕ) =
      readRef ⟨6, fun _ => [((1 : ℚ)/2, 5)]⟩ (0 : ℕ) ∧
     readRef (contract_no_bids ⟨6, fun _ => [((1 : ℚ)/2, 5)]⟩
        ⟨0, 1, 2, 3, 4, 5⟩).2 (contract_no_bids ⟨6, fun _ => [((1 : ℚ)/2, 5)]⟩
        ⟨0, 1, 2, 3, 4, 5⟩).1 =
      (readRef ⟨6, fun _ => [((1 : ℚ)/2, 5)]⟩ (0 : ℕ)).map complement) ∧
    (readRef (writeRef (contract_my_no_bids
        ⟨6, fun _ => [⟨1, 2, 1, 4, 4, 0, false⟩]⟩ ⟨0, 1, 2, 3, 4, 5⟩).2
        (contract_my_no_bids ⟨6, fun _ => [⟨1, 2, 1, 4, 4, 0, false⟩]⟩
        ⟨0, 1, 2, 3, 4, 5⟩).1 []) (2 : ℕ) =
      readRef ⟨6, fun _ => [⟨1, 2, 1, 4, 4, 0, false⟩]⟩ (2 : ℕ) ∧
     readRef (contract_my_no_bids ⟨6, fun _ => [⟨1, 2, 1, 4, 4, 0, false⟩]⟩
        ⟨0, 1, 2, 3, 4, 5⟩).2 (contract_my_no_bids
        ⟨6, fun _ => [⟨1, 2, 1, 4, 4, 0, false⟩]⟩ ⟨0, 1, 2, 3, 4, 5⟩).1 =
      readRef ⟨6, fun _ => [⟨1, 2, 1, 4, 4, 0, false⟩]⟩ (2 : ℕ)) ∧
    (readRef (writeRef (contract_my_yes_bids
        ⟨6, fun _ => [⟨1, 2, 1, 4, 4, 0, false⟩]⟩ ⟨0, 1, 2, 3, 4, 5⟩).2
        (contract_my_yes_bids ⟨6, fun _ => [⟨1, 2, 1, 4, 4, 0, false⟩]⟩
        ⟨0, 1, 2, 3, 4, 5⟩).1 []) (3 : ℕ) =
      readRef ⟨6, fun _ => [⟨1, 2, 1, 4, 4, 0, false⟩]⟩ (3 : ℕ) ∧
     readRef (contract_my_yes_bids ⟨6, fun _ => [⟨1, 2, 1, 4, 4, 0, false⟩]⟩
        ⟨0, 1, 2, 3, 4, 5⟩).2 (contract_my_yes_bids
        ⟨6, fun _ => [⟨1, 2, 1, 4, 4, 0, false⟩]⟩ ⟨0, 1, 2, 3, 4, 5⟩).1 =
      readRef ⟨6, fun _ => [⟨1, 2, 1, 4, 4, 0, false⟩]⟩ (3 : ℕ)) ∧
    (readRef (writeRef (contract_my_no_asks
        ⟨6, fun _ => [⟨1, 2, 1, 4, 4, 0, false⟩]⟩ ⟨0, 1, 2, 3, 4, 5⟩).2
        (contract_my_no_asks ⟨6, fun _ => [⟨1, 2, 1, 4, 4, 0, false⟩]⟩
        ⟨0, 1, 2, 3, 4, 5⟩).1 []) (4 : ℕ) =
      readRef ⟨6, fun _ => [⟨1, 2, 1, 4, 4, 0, false⟩]⟩ (4 : ℕ) ∧
     readRef (contract_my_no_asks ⟨6, fun _ => [⟨1, 2, 1, 4, 4, 0, false⟩]⟩
        ⟨0, 1, 2, 3, 4, 5⟩).2 (contract_my_no_asks
        ⟨6, fun _ => [⟨1, 2, 1, 4, 4, 0, false⟩]⟩ ⟨0, 1, 2, 3, 4, 5⟩).1 =
      readRef ⟨6, fun _ => [⟨1, 2, 1, 4, 4, 0, false⟩]⟩ (4 : ℕ)) ∧
    (readRef (writeRef (contract_my_yes_asks
        ⟨6, fun _ => [⟨1, 2, 1, 4, 4, 0, false⟩]⟩ ⟨0, 1, 2, 3, 4, 5⟩).2
        (contract_my_yes_asks ⟨6, fun _ => [⟨1, 2, 1, 4, 4, 0, false⟩]⟩
        ⟨0, 1, 2, 3, 4, 5⟩).1 []) (5 : ℕ) =
      readRef ⟨6, fun _ => [⟨1, 2, 1, 4, 4, 0, false⟩]⟩ (5 : ℕ) ∧
     readRef (contract_my_yes_asks ⟨6, fun _ => [⟨1, 2, 1, 4, 4, 0, false⟩]⟩
        ⟨0, 1, 2, 3, 4, 5⟩).2 (contract_my_yes_asks
        ⟨6, fun _ => [⟨1, 2, 1, 4, 4, 0, false⟩]⟩ ⟨0, 1, 2, 3, 4, 5⟩).1 =
      readRef ⟨6, fun _ => [⟨1, 2, 1, 4, 4, 0, false⟩]⟩ (5 : ℕ)) :=
  c10_accessors_return_copies ⟨3, fun _ => [7]⟩
    ⟨6, fun _ => [((1 : ℚ)/2, 5)]⟩ ⟨6, fun _ => [⟨1, 2, 1, 4, 4, 0, false⟩]⟩
    ⟨0⟩ ⟨1, 2⟩ ⟨0, 1, 2, 3, 4, 5⟩ [9] [] []
    (by decide) (by decide) (by decide) (by decide) (by decide)
    (by decide) (by decide) (by decide) (by decide)
